import Mathlib

/-!
Verification of the SupplyItem chaincode (two Go variants: the
ownership-tracking `bluechainlatest` variant and the earlier ten-argument
variant).  The ledger exposed by the host (`GetState`/`PutState`) is
modelled as a partial map from string keys to stored values; the only
byte strings the code ever writes are the JSON encoding of a `SupplyItem`
or of a `SupplyItemIDs_Holder`, so stored bytes are modelled by the
inductive `StoredVal`.  Decoding mirrors Go's `encoding/json`:
unmarshalling `nil` bytes fails, unmarshalling a JSON object into a
struct ignores unknown keys and leaves unmatched fields at their zero
value, and key matching is case-insensitive against the field's json tag.
-/

/-- SupplyItem record, fields in the order of the Go struct of the
`bluechainlatest` variant (the earlier variant lacks `ownerID`). -/
structure SupplyItem where
  supplierID : String
  operatorID : String
  longitude : String
  latitude : String
  description : String
  materialType : String
  materialQty : String
  unitOfMeasure : String
  photo : String
  supplyItemID : String
  ownerID : String
deriving DecidableEq, Repr

/-- The zero value of the Go `SupplyItem` struct: every field empty. -/
def zeroItem : SupplyItem :=
  ⟨"", "", "", "", "", "", "", "", "", "", ""⟩

/-- A value stored at a ledger key: either the JSON encoding of a
`SupplyItem` record or the JSON encoding of a `SupplyItemIDs_Holder`
(the list of all created supplyItemIDs). -/
inductive StoredVal where
  | item (s : SupplyItem)
  | holder (ids : List String)
deriving DecidableEq, Repr

/-- The ledger state: `GetState k` returns `none` (nil bytes, no error)
when nothing was ever put at `k`. -/
def Ledger : Type := String → Option StoredVal

/-- The empty ledger. -/
def emptyLedger : Ledger := fun _ => none

/-- `PutState`: overwrite the value at one key. -/
def putL (st : Ledger) (k : String) (v : StoredVal) : Ledger :=
  fun k' => if k' = k then some v else st k'

/-- Outcome of a chaincode entry point: a result, a Go `error`, or a
runtime crash (index-out-of-range on the `args` slice). -/
inductive Res (α : Type) where
  | ok (val : α)
  | err (msg : String)
  | crash
deriving DecidableEq, Repr

/-- A character that can sit inside a Go JSON string literal without
changing the structure of the surrounding object: not a quote, not a
backslash, not a control character. -/
def jsonSafeChar (c : Char) : Bool :=
  (c != '"') && (c != '\\') && decide (32 ≤ c.toNat)

/-- A string whose interpolation into the handwritten JSON literal of
`create_supplyItem` keeps that literal well formed. -/
def jsonSafe (s : String) : Bool :=
  s.data.all jsonSafeChar

/-- The `SupplyItem` produced by `create_supplyItem`'s handwritten JSON
literal followed by `json.Unmarshal` (whose error is discarded by the Go
code).  When every interpolated argument is JSON-safe the literal parses
and Go matches each key case-insensitively against the struct's json
tags; the key `"MaterialQty"` matches no tag (the tag is
`materialQuantity`), so that field stays at its zero value.  When an
argument contains a JSON metacharacter the literal is malformed, the
ignored `Unmarshal` error leaves the struct at its zero value.
(Argument strings crafted to re-form valid JSON — injection — are outside
this model and are used by no theorem.) -/
def buildItem (args : List String) : SupplyItem :=
  if (args.take 11).all jsonSafe then
    { supplierID := args.getD 1 ""
      operatorID := args.getD 2 ""
      longitude := args.getD 4 ""
      latitude := args.getD 5 ""
      description := args.getD 6 ""
      materialType := args.getD 7 ""
      materialQty := ""
      unitOfMeasure := args.getD 9 ""
      photo := args.getD 10 ""
      supplyItemID := args.getD 0 ""
      ownerID := args.getD 3 "" }
  else zeroItem

/-- `Init` of both variants: marshal the zero `SupplyItemIDs_Holder`
(its list decodes back as empty) and `PutState` it at the reserved key
`"supplyItemIDs"`.  The error returned by `PutState` is assigned to
`err` and then discarded: `Init` always returns `nil, nil`.  The
`putFails` flag models the underlying ledger primitive reporting
failure, in which case the write does not apply. -/
def Init (st : Ledger) (putFails : Bool) : Ledger × Res Unit :=
  let st' := if putFails then st else putL st "supplyItemIDs" (.holder [])
  (st', .ok ())

/-- `retrieve_SupplyItem`: `GetState` then `json.Unmarshal` into a
`SupplyItem`.  Absent key gives nil bytes, which `Unmarshal` rejects;
holder bytes decode to the zero item (unknown keys ignored). -/
def retrieve_SupplyItem (st : Ledger) (supplyItemID : String) : Res SupplyItem :=
  match st supplyItemID with
  | none => .err "RETRIEVE_SupplyItem: Corrupt supplyItem record"
  | some (.item s) => .ok s
  | some (.holder _) => .ok zeroItem

/-- `json.Unmarshal` of stored bytes into a `SupplyItemIDs_Holder`:
nil bytes fail (`none`); item bytes decode to the zero holder (unknown
keys ignored). -/
def unmarshalHolder : Option StoredVal → Option (List String)
  | none => none
  | some (.holder ids) => some ids
  | some (.item _) => some []

/-- `create_supplyItem` (bluechainlatest, 11 positional arguments).
Go indexes `args[0]`..`args[10]` with no arity check, so a short list
crashes.  The emptiness guard compares the local variable
`supplyItemID` — the whole fragment `"SupplyItemID":"<args0>", ` — with
`""`, so it never fires.  The duplicate check reads
`sItem.SupplyItemID`, while the index append uses `args[0]`. -/
def create_supplyItem (st : Ledger) (args : List String) : Ledger × Res Unit :=
  if args.length < 11 then (st, .crash)
  else
    let supplyItemID := "\"SupplyItemID\":\"" ++ args.getD 0 "" ++ "\", "
    if supplyItemID = "" then (st, .err "Invalid supplyItemID provided")
    else
      let sItem := buildItem args
      match st sItem.supplyItemID with
      | some _ => (st, .err "SupplyItem already exists")
      | none =>
        let st1 := putL st sItem.supplyItemID (.item sItem)
        match unmarshalHolder (st1 "supplyItemIDs") with
        | none => (st1, .err "Corrupt SupplyItemIDs_Holder record")
        | some ids =>
          (putL st1 "supplyItemIDs" (.holder (ids ++ [args.getD 0 ""])), .ok ())

/-- `update_supplyItem` (bluechainlatest): sets BOTH `OperatorID` and
`OwnerID` to `new_value`, then `save_changes` writes the record back at
`sItem.SupplyItemID`. -/
def update_supplyItem (st : Ledger) (sItem : SupplyItem) (new_value : String) :
    Ledger × Res Unit :=
  let sItem' := { sItem with operatorID := new_value, ownerID := new_value }
  (putL st sItem'.supplyItemID (.item sItem'), .ok ())

/-- `Invoke`: routes `create_supplyItem` and `update_supplyItem`.  The
update path reads `args[0]` (crash when absent), retrieves the record
(typed error on failure), then reads `args[1]` (crash when absent). -/
def Invoke (st : Ledger) (function : String) (args : List String) : Ledger × Res Unit :=
  if function = "create_supplyItem" then create_supplyItem st args
  else if function = "update_supplyItem" then
    if args.length < 1 then (st, .crash)
    else
      match retrieve_SupplyItem st (args.getD 0 "") with
      | .ok sItem =>
          if args.length < 2 then (st, .crash)
          else update_supplyItem st sItem (args.getD 1 "")
      | _ => (st, .err "Error retrieving supplyItem")
  else (st, .err ("Function of the name " ++ function ++ " does not exist."))

/-- `get_supply_item_details`: marshal (cannot fail on a struct), then
reveal the record only to its owner.  The revealed payload is modelled
as the record itself. -/
def get_supply_item_details (sItem : SupplyItem) (caller : String) : Res SupplyItem :=
  if sItem.ownerID = caller then .ok sItem
  else .err "Permission Denied. get_supply_item_details"

/-- The loop of `get_supplyItems`: retrieve each indexed id (any
retrieve failure aborts the whole listing), keep the records the
ownership filter reveals, in index order.  The JSON array the Go code
concatenates is modelled as the list of revealed records. -/
def getItemsLoop (st : Ledger) (caller : String) : List String → Res (List SupplyItem)
  | [] => .ok []
  | id :: rest =>
    match retrieve_SupplyItem st id with
    | .err _ => .err "Failed to retrieve SupplyItemID"
    | .crash => .crash
    | .ok sItem =>
      match getItemsLoop st caller rest with
      | .ok acc =>
          match get_supply_item_details sItem caller with
          | .ok s => .ok (s :: acc)
          | _ => .ok acc
      | e => e

/-- `get_supplyItems`: load the index (nil bytes at the reserved key
fail to unmarshal), then run the loop. -/
def get_supplyItems (st : Ledger) (caller : String) : Res (List SupplyItem) :=
  match unmarshalHolder (st "supplyItemIDs") with
  | none => .err "Corrupt SupplyItemIDs_Holder"
  | some ids => getItemsLoop st caller ids

/-- `read` of the earlier variant: arity check, `GetState`, return the
raw bytes unfiltered.  `GetState` on an absent key returns nil bytes and
no error, so `read` succeeds with an empty payload there. -/
def read (st : Ledger) (args : List String) : Res (Option StoredVal) :=
  if args.length ≠ 1 then
    .err "Incorrect number of arguments. Expecting name of the key to query"
  else .ok (st (args.getD 0 ""))

/-- Chains `create_supplyItem` calls, `none` as soon as one does not
return `ok`. -/
def createsOK : Ledger → List (List String) → Option Ledger
  | st, [] => some st
  | st, args :: rest =>
    match create_supplyItem st args with
    | (st', .ok _) => createsOK st' rest
    | _ => none

/-- State after a fresh deployment: `Init` on the empty ledger. -/
def st0 : Ledger := (Init emptyLedger false).1

/-- The create arguments of the spec's scenario. -/
def scenarioArgs : List String :=
  ["S1", "sup1", "op1", "own1", "10.0", "20.0", "desc", "metal", "5", "kg", "photo.jpg"]

/-- State after the scenario create. -/
def st1 : Ledger := (create_supplyItem st0 scenarioArgs).1

/-- The record the scenario create actually stores: `materialQty` is
empty, every other field comes from the corresponding argument. -/
def rec1 : SupplyItem :=
  ⟨"sup1", "op1", "10.0", "20.0", "desc", "metal", "", "kg", "photo.jpg", "S1", "own1"⟩

/-- Arguments of a second create, owners `own2`, id `S2`. -/
def scenarioArgs2 : List String :=
  ["S2", "sup2", "op2", "own2", "11.0", "21.0", "d2", "wood", "7", "kg", "p2.jpg"]

/-- State after both scenario creates. -/
def st2 : Ledger := (create_supplyItem st1 scenarioArgs2).1

/-- The record stored by the second create. -/
def rec2 : SupplyItem :=
  ⟨"sup2", "op2", "11.0", "21.0", "d2", "wood", "", "kg", "p2.jpg", "S2", "own2"⟩

/-- The retrieval sweep underlying `get_supplyItems`: every indexed id
retrieved in order, `none` as soon as one retrieval fails. -/
def retrievedItems (st : Ledger) : List String → Option (List SupplyItem)
  | [] => some []
  | id :: rest =>
    match retrieve_SupplyItem st id with
    | .ok s => (retrievedItems st rest).map (fun l => s :: l)
    | _ => none

/-- The bidirectional record/index consistency invariant: the ids held
in the singleton index are exactly the ledger keys holding SupplyItem
records. -/
def IndexInv (st : Ledger) : Prop :=
  ∃ ids : List String, st "supplyItemIDs" = some (.holder ids) ∧
    ∀ k, k ∈ ids ↔ ∃ item, st k = some (.item item)

/-! Helper lemmas. -/

theorem data_append (s t : String) : (s ++ t).data = s.data ++ t.data := rfl

theorem sid_fragment_ne_empty (s : String) :
    ("\"SupplyItemID\":\"" ++ s ++ "\", ") ≠ "" := by
  intro h
  have h2 := congrArg String.data h
  rw [data_append, data_append] at h2
  have h3 := (List.append_eq_nil.mp h2).2
  exact absurd h3 (by decide)

theorem buildItem_id_of_safe (args : List String)
    (h : (args.take 11).all jsonSafe = true) :
    (buildItem args).supplyItemID = args.getD 0 "" := by
  simp [buildItem, h]

theorem putL_self (st : Ledger) (k : String) (v : StoredVal) :
    putL st k v k = some v := by
  simp [putL]

theorem putL_other (st : Ledger) (k : String) (v : StoredVal) (k' : String)
    (h : k' ≠ k) : putL st k v k' = st k' := by
  simp [putL, h]

/-! Claim theorems. -/

/-- C1: for the spec's own scenario create, the stored record does NOT
carry every positional argument: the create succeeds and the record
listed for the owner has every field from the arguments EXCEPT
`materialQuantity`, which is stored empty although argument 8 was "5"
(the handwritten JSON key "MaterialQty" matches no json tag of the
struct, so Go's Unmarshal drops it). -/
theorem create_drops_material_quantity :
    (create_supplyItem st0 scenarioArgs).2 = .ok () ∧
    retrieve_SupplyItem st1 "S1" = .ok rec1 ∧
    get_supplyItems st1 "own1" = .ok [rec1] ∧
    get_supplyItems st1 "own2" = .ok [] ∧
    rec1.materialQty = "" ∧
    scenarioArgs.getD 8 "" = "5" := by
  decide

/-- C6: `Init` discards the error returned by the ledger put of the
empty index record: even when the put reports failure (so the state is
unchanged), `Init` reports success instead of failing. -/
theorem init_reports_success_despite_put_failure (st : Ledger) :
    Init st true = (st, Res.ok ()) := rfl

/-- C7 counterexample: a create invocation with an empty argument list
does not fail with a typed error — it crashes (index out of range on
`args`). -/
theorem create_short_args_crashes_concrete :
    create_supplyItem emptyLedger [] = (emptyLedger, Res.crash) := rfl

/-- C7 amended: a create invocation with fewer than 11 positional
arguments crashes with an index-out-of-range access rather than
returning a typed InvalidArguments failure, and an update invocation
with no arguments likewise crashes. -/
theorem short_args_crash (st : Ledger) (args : List String)
    (h : args.length < 11) :
    create_supplyItem st args = (st, Res.crash) ∧
    Invoke st "update_supplyItem" [] = (st, Res.crash) := by
  refine ⟨?_, rfl⟩
  simp [create_supplyItem, h]

/-- C7 witness: the amended statement at a concrete one-element
argument list. -/
theorem short_args_crash_witness :
    create_supplyItem emptyLedger ["x"] = (emptyLedger, Res.crash) ∧
    Invoke emptyLedger "update_supplyItem" [] = (emptyLedger, Res.crash) :=
  short_args_crash emptyLedger ["x"] (by decide)

/-- C8: a create whose first argument (the supplyItemID) is the empty
string succeeds and stores a record with empty `supplyItemID` at the
empty key, indexing the empty id — the emptiness guard in the code
compares the whole JSON fragment with "", which never holds. -/
theorem create_empty_id_succeeds :
    (create_supplyItem st0
        ["", "sup1", "op1", "own1", "10.0", "20.0", "desc", "metal", "5", "kg", "p"]).2
      = .ok () ∧
    (create_supplyItem st0
        ["", "sup1", "op1", "own1", "10.0", "20.0", "desc", "metal", "5", "kg", "p"]).1 ""
      = some (.item ⟨"sup1", "op1", "10.0", "20.0", "desc", "metal", "", "kg", "p", "", "own1"⟩) ∧
    unmarshalHolder ((create_supplyItem st0
        ["", "sup1", "op1", "own1", "10.0", "20.0", "desc", "metal", "5", "kg", "p"]).1
        "supplyItemIDs")
      = some [""] := by
  decide

/-- C9 counterexample: `read` on a key at which no ledger entry exists
succeeds with an empty payload instead of failing with NotFound
(the ledger get returns nil bytes and no error for an absent key). -/
theorem read_absent_key_succeeds :
    read emptyLedger ["nokey"] = .ok none := rfl

/-- C9 amended: for a one-element argument list, `read` always succeeds
and returns exactly the raw bytes stored at the key — `none` when the
key is absent, the stored value unfiltered by ownership otherwise. -/
theorem read_returns_raw_state (st : Ledger) (k : String) :
    read st [k] = .ok (st k) := rfl

/-- C10: re-running `Init` on any state overwrites the singleton index
with the empty list, leaves every other key (hence every stored record)
unchanged, and makes a subsequent `get_supplyItems` return the empty
listing for every caller. -/
theorem reinit_empties_index_keeps_records (st : Ledger) :
    (Init st false).1 "supplyItemIDs" = some (.holder []) ∧
    (∀ k, k ≠ "supplyItemIDs" → (Init st false).1 k = st k) ∧
    (∀ caller, get_supplyItems (Init st false).1 caller = .ok []) := by
  refine ⟨rfl, ?_, fun _ => rfl⟩
  intro k hk
  simp [Init, putL, hk]

/-- C10 witness: after the scenario create, re-running `Init` keeps the
record at "S1" but empties the index, so the owner's listing is []. -/
theorem reinit_empties_index_witness :
    (Init st1 false).1 "supplyItemIDs" = some (.holder []) ∧
    (Init st1 false).1 "S1" = st1 "S1" ∧
    get_supplyItems (Init st1 false).1 "own1" = .ok [] :=
  ⟨(reinit_empties_index_keeps_records st1).1,
   (reinit_empties_index_keeps_records st1).2.1 "S1" (by decide),
   (reinit_empties_index_keeps_records st1).2.2 "own1"⟩

/-- C2 counterexample: with the scenario record already stored at "S1",
a second create whose first argument is again "S1" but whose second
argument contains a quote character SUCCEEDS (the malformed JSON makes
the ignored Unmarshal error leave the candidate record zero-valued, so
the duplicate check inspects the empty key instead of "S1") and it
writes: "S1" is appended to the identifier index a second time. -/
theorem duplicate_create_succeeds_on_malformed_args :
    st1 "S1" = some (.item rec1) ∧
    (create_supplyItem st1
        ["S1", "sup\"1", "op1", "own1", "10.0", "20.0", "desc", "metal", "5", "kg", "photo.jpg"]).2
      = .ok () ∧
    unmarshalHolder ((create_supplyItem st1
        ["S1", "sup\"1", "op1", "own1", "10.0", "20.0", "desc", "metal", "5", "kg", "photo.jpg"]).1
        "supplyItemIDs")
      = some ["S1", "S1"] := by
  decide

/-- C2 amended: when the eleven positional arguments are free of JSON
metacharacters and an entry already exists at the id given by the first
argument, the second create always fails with the duplicate error and
performs no write: the whole ledger state (record and index included)
is exactly as it was before the failed create. -/
theorem create_duplicate_id_fails_and_preserves_state (st : Ledger)
    (args : List String) (hlen : 11 ≤ args.length)
    (hsafe : (args.take 11).all jsonSafe = true)
    (v : StoredVal) (hex : st (args.getD 0 "") = some v) :
    create_supplyItem st args = (st, .err "SupplyItem already exists") := by
  have hlt : ¬ args.length < 11 := by omega
  simp only [create_supplyItem, if_neg hlt,
    if_neg (sid_fragment_ne_empty (args.getD 0 "")),
    buildItem_id_of_safe args hsafe, hex]

/-- C2 witness: replaying the scenario create against the state that
already holds the scenario record fails with the duplicate error and
leaves the state untouched. -/
theorem create_duplicate_id_fails_witness :
    create_supplyItem st1 scenarioArgs = (st1, .err "SupplyItem already exists") :=
  create_duplicate_id_fails_and_preserves_state st1 scenarioArgs (by decide)
    (by decide) (.item rec1) (by decide)

/-- C3 counterexample: after the scenario create (ownerID "own1"),
a successful `update_supplyItem("S1","op2")` leaves the record with
`ownerID = "op2"`: the ownerID is NOT unchanged — the code assigns
`new_value` to both OperatorID and OwnerID. -/
theorem update_mutates_ownerID :
    retrieve_SupplyItem st1 "S1" = .ok rec1 ∧
    rec1.ownerID = "own1" ∧
    (Invoke st1 "update_supplyItem" ["S1", "op2"]).2 = .ok () ∧
    retrieve_SupplyItem (Invoke st1 "update_supplyItem" ["S1", "op2"]).1 "S1"
      = .ok { rec1 with operatorID := "op2", ownerID := "op2" } ∧
    ({ rec1 with operatorID := "op2", ownerID := "op2" } : SupplyItem).ownerID
      ≠ rec1.ownerID := by
  decide

/-- C3 amended: after a successful update of a stored record, the record
at the id has `operatorID` AND `ownerID` equal to the new value, and
every other field and every other ledger key unchanged. -/
theorem update_sets_operator_and_owner (st : Ledger) (id v : String)
    (rec : SupplyItem) (hrec : st id = some (.item rec))
    (hid : rec.supplyItemID = id) :
    (Invoke st "update_supplyItem" [id, v]).2 = .ok () ∧
    (Invoke st "update_supplyItem" [id, v]).1 id
      = some (.item { rec with operatorID := v, ownerID := v }) ∧
    ∀ k, k ≠ id → (Invoke st "update_supplyItem" [id, v]).1 k = st k := by
  have hInv : Invoke st "update_supplyItem" [id, v]
      = (putL st id (.item { rec with operatorID := v, ownerID := v }), .ok ()) := by
    have hne : ("update_supplyItem" : String) ≠ "create_supplyItem" := by decide
    have hr : retrieve_SupplyItem st ([id, v].getD 0 "") = .ok rec := by
      simp [retrieve_SupplyItem, hrec]
    simp only [Invoke, if_neg hne, if_pos rfl, hr, update_supplyItem]
    simp [hid]
  refine ⟨by rw [hInv], by rw [hInv]; exact putL_self st id _, ?_⟩
  intro k hk
  rw [hInv]
  exact putL_other st id _ k hk

/-- C3 witness: the amended statement at the scenario state, id "S1",
new value "op2", checked on the record key and on the index key. -/
theorem update_sets_operator_and_owner_witness :
    (Invoke st1 "update_supplyItem" ["S1", "op2"]).2 = .ok () ∧
    (Invoke st1 "update_supplyItem" ["S1", "op2"]).1 "S1"
      = some (.item { rec1 with operatorID := "op2", ownerID := "op2" }) ∧
    (Invoke st1 "update_supplyItem" ["S1", "op2"]).1 "supplyItemIDs"
      = st1 "supplyItemIDs" :=
  ⟨(update_sets_operator_and_owner st1 "S1" "op2" rec1 (by decide) (by decide)).1,
   (update_sets_operator_and_owner st1 "S1" "op2" rec1 (by decide) (by decide)).2.1,
   (update_sets_operator_and_owner st1 "S1" "op2" rec1 (by decide) (by decide)).2.2
     "supplyItemIDs" (by decide)⟩

/-- A successful listing loop is exactly the retrieval sweep of the
index filtered by the ownership predicate, in index order. -/
theorem getItemsLoop_ok_filter (st : Ledger) (c : String) :
    ∀ ids out, getItemsLoop st c ids = .ok out →
      ∃ items, retrievedItems st ids = some items ∧
        out = items.filter (fun i => i.ownerID == c) := by
  intro ids
  induction ids with
  | nil =>
    intro out h
    exact ⟨[], rfl, (Res.ok.inj h).symm⟩
  | cons id rest ih =>
    intro out h
    cases hr : retrieve_SupplyItem st id with
    | err m => simp only [getItemsLoop, hr] at h; exact Res.noConfusion h
    | crash => simp only [getItemsLoop, hr] at h; exact Res.noConfusion h
    | ok s =>
      cases hl : getItemsLoop st c rest with
      | err m => simp only [getItemsLoop, hr, hl] at h; exact Res.noConfusion h
      | crash => simp only [getItemsLoop, hr, hl] at h; exact Res.noConfusion h
      | ok acc =>
        obtain ⟨items, hi, hout⟩ := ih acc hl
        simp only [getItemsLoop, hr, hl, get_supply_item_details] at h
        refine ⟨s :: items, by simp only [retrievedItems, hr, hi, Option.map_some'], ?_⟩
        by_cases ho : s.ownerID = c
        · rw [if_pos ho] at h
          have hout2 := (Res.ok.inj h).symm
          subst hout2
          simp [List.filter_cons, ho, hout]
        · rw [if_neg ho] at h
          have hout2 := (Res.ok.inj h).symm
          subst hout2
          simp [List.filter_cons, ho, hout]

/-- Every indexed id whose retrieval succeeds contributes its record to
a successful retrieval sweep. -/
theorem retrievedItems_mem (st : Ledger) :
    ∀ ids items, retrievedItems st ids = some items →
      ∀ id ∈ ids, ∀ s, retrieve_SupplyItem st id = .ok s → s ∈ items := by
  intro ids
  induction ids with
  | nil =>
    intro items _ id hmem
    cases hmem
  | cons hd rest ih =>
    intro items hitems id hmem s hs
    cases hr : retrieve_SupplyItem st hd with
    | err m =>
      simp only [retrievedItems, hr] at hitems
      exact Option.noConfusion hitems
    | crash =>
      simp only [retrievedItems, hr] at hitems
      exact Option.noConfusion hitems
    | ok s0 =>
      simp only [retrievedItems, hr] at hitems
      cases hrest : retrievedItems st rest with
      | none => rw [hrest] at hitems; exact Option.noConfusion hitems
      | some itemsR =>
        rw [hrest, Option.map_some'] at hitems
        have hitems2 := (Option.some.inj hitems).symm
        subst hitems2
        rcases List.mem_cons.mp hmem with rfl | hmem2
        · rw [hr] at hs
          have := Res.ok.inj hs
          subst this
          exact List.mem_cons_self _ _
        · exact List.mem_cons_of_mem _ (ih itemsR hrest id hmem2 s hs)

/-- C4 amended: for a record stored at an id that appears in the index,
with owner B, a successful listing for any caller A ≠ B never includes
the record, a successful listing for B does include it, and either
successful listing is the index-order retrieval sweep filtered by the
ownership predicate. -/
theorem listing_owner_visibility (st : Ledger) (A B id : String)
    (item : SupplyItem) (ids : List String) (outA outB : List SupplyItem)
    (hidx : st "supplyItemIDs" = some (.holder ids)) (hmem : id ∈ ids)
    (hrec : st id = some (.item item)) (hown : item.ownerID = B) (hne : B ≠ A)
    (hA : get_supplyItems st A = .ok outA)
    (hB : get_supplyItems st B = .ok outB) :
    item ∉ outA ∧ item ∈ outB ∧
    ∃ items, retrievedItems st ids = some items ∧
      outB = items.filter (fun i => i.ownerID == B) := by
  have hA2 : getItemsLoop st A ids = .ok outA := by
    simpa only [get_supplyItems, hidx, unmarshalHolder] using hA
  have hB2 : getItemsLoop st B ids = .ok outB := by
    simpa only [get_supplyItems, hidx, unmarshalHolder] using hB
  obtain ⟨itemsA, hiA, houtA⟩ := getItemsLoop_ok_filter st A ids outA hA2
  obtain ⟨itemsB, hiB, houtB⟩ := getItemsLoop_ok_filter st B ids outB hB2
  have hret : retrieve_SupplyItem st id = .ok item := by
    simp [retrieve_SupplyItem, hrec]
  refine ⟨?_, ?_, itemsB, hiB, houtB⟩
  · intro hin
    rw [houtA] at hin
    have := List.of_mem_filter hin
    rw [beq_iff_eq] at this
    exact hne (hown ▸ this)
  · rw [houtB]
    exact List.mem_filter.mpr
      ⟨retrievedItems_mem st ids itemsB hiB id hmem item hret, by simp [hown]⟩

/-- C4 witness: with two records owned by "own1" and "own2", the record
of "own2" is absent from "own1"'s listing, present in "own2"'s listing,
and "own2"'s listing is the filtered retrieval sweep of the index. -/
theorem listing_owner_visibility_witness :
    rec2 ∉ [rec1] ∧ rec2 ∈ [rec2] ∧
    ∃ items, retrievedItems st2 ["S1", "S2"] = some items ∧
      [rec2] = items.filter (fun i => i.ownerID == "own2") :=
  listing_owner_visibility st2 "own1" "own2" "S2" rec2 ["S1", "S2"] [rec1] [rec2]
    (by decide) (by decide) (by decide) (by decide) (by decide) (by decide) (by decide)

/-- C4 counterexample: re-running `Init` after the scenario create
leaves the record at "S1" stored with owner "own1", yet the owner's own
successful listing is empty — a stored record that a successful
`get_supplyItems` of its owner does not include. -/
theorem listing_misses_stored_record_after_reinit :
    (Init st1 false).1 "S1" = some (.item rec1) ∧
    rec1.ownerID = "own1" ∧
    get_supplyItems (Init st1 false).1 "own1" = .ok [] ∧
    rec1 ∉ ([] : List SupplyItem) := by
  decide

/-- One successful create with JSON-safe arguments preserves the
record/index consistency invariant. -/
theorem create_preserves_IndexInv (st st' : Ledger) (args : List String)
    (hsafe : (args.take 11).all jsonSafe = true) (hinv : IndexInv st)
    (hok : create_supplyItem st args = (st', .ok ())) : IndexInv st' := by
  obtain ⟨ids, hidx, hiff⟩ := hinv
  by_cases hlen : args.length < 11
  · simp only [create_supplyItem, if_pos hlen] at hok
    exact Res.noConfusion (congrArg Prod.snd hok)
  · have hguard := sid_fragment_ne_empty (args.getD 0 "")
    have hbid : (buildItem args).supplyItemID = args.getD 0 "" :=
      buildItem_id_of_safe args hsafe
    cases hrec : st (args.getD 0 "") with
    | some v =>
      simp only [create_supplyItem, if_neg hlen, if_neg hguard, hbid, hrec] at hok
      exact Res.noConfusion (congrArg Prod.snd hok)
    | none =>
      have hne0 : args.getD 0 "" ≠ "supplyItemIDs" := by
        intro h
        rw [h, hidx] at hrec
        exact Option.noConfusion hrec
      have hs1 : putL st (args.getD 0 "") (.item (buildItem args)) "supplyItemIDs"
          = some (.holder ids) := by
        rw [putL_other st (args.getD 0 "") _ "supplyItemIDs" (Ne.symm hne0), hidx]
      simp only [create_supplyItem, if_neg hlen, if_neg hguard, hbid, hrec, hs1,
        unmarshalHolder] at hok
      have hst' : st' = putL (putL st (args.getD 0 "") (.item (buildItem args)))
          "supplyItemIDs" (.holder (ids ++ [args.getD 0 ""])) :=
        (congrArg Prod.fst hok).symm
      refine ⟨ids ++ [args.getD 0 ""], by rw [hst']; exact putL_self _ _ _, ?_⟩
      intro k
      by_cases hk1 : k = "supplyItemIDs"
      · subst hk1
        constructor
        · intro hk
          rcases List.mem_append.mp hk with h | h
          · obtain ⟨item, hitem⟩ := (hiff "supplyItemIDs").mp h
            rw [hidx] at hitem
            exact StoredVal.noConfusion (Option.some.inj hitem)
          · exact absurd (List.mem_singleton.mp h).symm hne0
        · rintro ⟨item, hitem⟩
          rw [hst', putL_self] at hitem
          exact StoredVal.noConfusion (Option.some.inj hitem)
      · by_cases hk2 : k = args.getD 0 ""
        · subst hk2
          constructor
          · intro _
            exact ⟨buildItem args,
              by rw [hst', putL_other _ _ _ _ hk1, putL_self]⟩
          · intro _
            exact List.mem_append.mpr (Or.inr (List.mem_singleton.mpr rfl))
        · constructor
          · intro hk
            have hk3 : k ∈ ids := by
              rcases List.mem_append.mp hk with h | h
              · exact h
              · exact absurd (List.mem_singleton.mp h) hk2
            obtain ⟨item, hitem⟩ := (hiff k).mp hk3
            exact ⟨item,
              by rw [hst', putL_other _ _ _ _ hk1, putL_other _ _ _ _ hk2, hitem]⟩
          · rintro ⟨item, hitem⟩
            rw [hst', putL_other _ _ _ _ hk1, putL_other _ _ _ _ hk2] at hitem
            exact List.mem_append.mpr (Or.inl ((hiff k).mpr ⟨item, hitem⟩))

/-- A chain of successful creates with JSON-safe arguments preserves the
record/index consistency invariant. -/
theorem createsOK_preserves_IndexInv :
    ∀ (argss : List (List String)) (st st' : Ledger),
      (∀ args ∈ argss, (args.take 11).all jsonSafe = true) →
      IndexInv st → createsOK st argss = some st' → IndexInv st' := by
  intro argss
  induction argss with
  | nil =>
    intro st st' _ hinv h
    have := Option.some.inj h
    subst this
    exact hinv
  | cons args rest ih =>
    intro st st' hsafe hinv h
    cases hc : create_supplyItem st args with
    | mk stm r =>
      cases r with
      | ok u =>
        cases u
        have hinv2 := create_preserves_IndexInv st stm args
          (hsafe args (List.mem_cons_self _ _)) hinv hc
        simp only [createsOK, hc] at h
        exact ih stm st' (fun a ha => hsafe a (List.mem_cons_of_mem _ ha)) hinv2 h
      | err m =>
        simp only [createsOK, hc] at h
        exact Option.noConfusion h
      | crash =>
        simp only [createsOK, hc] at h
        exact Option.noConfusion h

/-- C5 amended: after any sequence of successful creates from the
freshly deployed state, provided every positional argument is free of
JSON metacharacters, the identifiers in the singleton index are exactly
the ledger keys (other than the reserved index key, which holds the
holder, never a record) at which SupplyItem records are stored. -/
theorem index_matches_store_for_safe_creates (argss : List (List String))
    (st' : Ledger)
    (hsafe : ∀ args ∈ argss, (args.take 11).all jsonSafe = true)
    (hrun : createsOK st0 argss = some st') :
    ∃ ids, st' "supplyItemIDs" = some (.holder ids) ∧
      ∀ k, k ∈ ids ↔ ∃ item, st' k = some (.item item) := by
  have hinv0 : IndexInv st0 := by
    refine ⟨[], rfl, ?_⟩
    intro k
    simp only [List.not_mem_nil, false_iff]
    rintro ⟨item, hitem⟩
    by_cases hk : k = "supplyItemIDs"
    · subst hk
      exact StoredVal.noConfusion (Option.some.inj hitem)
    · have hnone : st0 k = none := by
        simp [st0, Init, putL, emptyLedger, hk]
      rw [hnone] at hitem
      exact Option.noConfusion hitem
  exact createsOK_preserves_IndexInv argss st0 st' hsafe hinv0 hrun

/-- C5 witness: the amended statement after the single scenario create. -/
theorem index_matches_store_witness :
    ∃ ids, st1 "supplyItemIDs" = some (.holder ids) ∧
      ∀ k, k ∈ ids ↔ ∃ item, st1 k = some (.item item) :=
  index_matches_store_for_safe_creates [scenarioArgs] st1 (by decide) rfl

/-- C5 counterexample: a single successful create whose id contains a
quote character appends that id to the index while the record is written
at the empty key — the index then names an identifier at which no record
is stored, so the two sets differ. -/
theorem index_store_mismatch_on_malformed_args :
    ∃ st', createsOK st0
        [["x\"y", "sup1", "op1", "own1", "10.0", "20.0", "desc", "metal", "5", "kg", "photo.jpg"]]
      = some st' ∧
    ∃ ids, st' "supplyItemIDs" = some (.holder ids) ∧
      "x\"y" ∈ ids ∧ st' "x\"y" = none := by
  refine ⟨(create_supplyItem st0
      ["x\"y", "sup1", "op1", "own1", "10.0", "20.0", "desc", "metal", "5", "kg", "photo.jpg"]).1,
    rfl, ["x\"y"], ?_, ?_, ?_⟩
  · decide
  · decide
  · decide
